import Mathlib

/-!
Verification of the SolStream indexer SDK against its specification.

The definitions below are shallow embeddings of the Rust source:
  * `src/src/core/log_registry.rs`  — the log decoder registry,
  * `src/src/sources/websocket.rs`  — the WebSocket streamer,
  * `src/solana-indexer-sdk/src/types/metadata.rs` — transaction metadata,
and, where the repository ships only callers of a component, a model built
from the specification text (marked in the doc comment).

Machine integers are modelled as `Nat`/`Int` (no arithmetic in the claims
overflows), `Pubkey`/`Signature` as `String`, `Vec<u8>` as `List Nat`, and
Rust `HashMap<String, Vec<_>>` as an association list with unique keys
(the registry only uses keyed `get`/`entry`, never iteration order).
-/

namespace SolStream

/-! ## Log decoder registry (`src/src/core/log_registry.rs`) -/

/-- Event kind of a parsed log line.  The `events.rs` file is not part of the
sources; only `program_id` is consulted by the registry, so the kind is kept
abstract as a placeholder with the variant exercised by the registry tests. -/
inductive EventType where
  | ProgramLog
  | Other
deriving DecidableEq, Repr

/-- `ParsedEvent` from `types/events.rs` as used by `decode_logs`:
an optional emitting program id (a `Pubkey`, modelled as its base58 string)
and an optional data string. -/
structure ParsedEvent where
  event_type : EventType
  program_id : Option String
  data : Option String

/-- An 8-byte discriminator `[u8; 8]`, modelled as a list of bytes. -/
abbrev Discriminator := List Nat

/-- `dyn DynamicLogDecoder`: `decode_log_dynamic` takes a parsed event and
returns `Some (discriminator, payload)` on success. -/
abbrev DynamicLogDecoder := ParsedEvent → Option (Discriminator × List Nat)

/-- `LogDecoderRegistry.decoders : HashMap<String, Vec<Box<dyn DynamicLogDecoder>>>`,
as an association list with unique keys. -/
structure LogDecoderRegistry where
  decoders : List (String × List DynamicLogDecoder)

/-- Keyed lookup, the model of `HashMap::get`. -/
def lookupDecoders : List (String × List DynamicLogDecoder) → String →
    Option (List DynamicLogDecoder)
  | [], _ => none
  | (k, ds) :: rest, pid => if k = pid then some ds else lookupDecoders rest pid

/-- `self.decoders.entry(program_id).or_default().push(decoder)`:
append the decoder to the program's vector, creating the entry if absent. -/
def registerEntry : List (String × List DynamicLogDecoder) → String →
    DynamicLogDecoder → List (String × List DynamicLogDecoder)
  | [], pid, d => [(pid, [d])]
  | (k, ds) :: rest, pid, d =>
      if k = pid then (k, ds ++ [d]) :: rest
      else (k, ds) :: registerEntry rest pid d

/-- `LogDecoderRegistry::register`. -/
def register (reg : LogDecoderRegistry) (program_id : String)
    (decoder : DynamicLogDecoder) : LogDecoderRegistry :=
  { decoders := registerEntry reg.decoders program_id decoder }

/-- The inner `for decoder in decoders { if let Some(decoded) = ... { push; break } }`
loop of `decode_logs`: first decoder returning `Some` wins. -/
def firstDecode : List DynamicLogDecoder → ParsedEvent →
    Option (Discriminator × List Nat)
  | [], _ => none
  | d :: ds, e =>
      match d e with
      | some r => some r
      | none => firstDecode ds e

/-- The per-event body of `decode_logs`: events with no program id, or whose
program id has no registered decoders, contribute nothing. -/
def decodeEvent (reg : LogDecoderRegistry) (e : ParsedEvent) :
    Option (Discriminator × List Nat) :=
  match e.program_id with
  | none => none
  | some pid =>
      match lookupDecoders reg.decoders pid with
      | none => none
      | some ds => firstDecode ds e

/-- `LogDecoderRegistry::decode_logs`: outer loop over the event slice,
pushing each successfully decoded `(discriminator, data)` tuple. -/
def decode_logs (reg : LogDecoderRegistry) :
    List ParsedEvent → List (Discriminator × List Nat)
  | [] => []
  | e :: es =>
      match decodeEvent reg e with
      | some r => r :: decode_logs reg es
      | none => decode_logs reg es

/-! ## WebSocket streamer (`src/src/sources/websocket.rs`)

The async code is embedded as explicit state passing.  Network and channel
effects are modelled by an environment `NetEnv` that fixes the outcome of
the connection attempt, the incoming message stream consumed by the
confirmation loop, and the contents of the fresh signature channel at the
time it is next observed.  A call that can block forever (the confirmation
loop with no parsing message, `recv` on an open empty channel) returns
`none` at the `Option` layer. -/

/-- `SolanaIndexerError`, restricted to the variants `websocket.rs` uses. -/
inductive SolanaIndexerError where
  | RpcError (msg : String)
  | InternalError (msg : String)
deriving DecidableEq, Repr

/-- A `tokio::sync::mpsc` unbounded channel as seen by the receiver:
the FIFO of buffered signatures and whether the sender side is gone.
`recv` still yields buffered messages after close; it returns `None`
only on closed *and* empty. -/
structure Channel where
  pending : List String
  closed : Bool
deriving DecidableEq, Repr

/-- `WebSocketState`. -/
inductive WebSocketState where
  | Disconnected
  | Connected (subscription_id : Nat) (receiver : Channel)
deriving DecidableEq, Repr

/-- `WebSocketSource` (the `Pubkey` field as its base58 string). -/
structure WebSocketSource where
  ws_url : String
  program_id : String
  reconnect_delay_secs : Nat
  state : WebSocketState
deriving DecidableEq, Repr

/-- The `programSubscribe` JSON-RPC request built in `connect` (the `json!`
literal with its concrete field values). -/
structure SubscribeRequest where
  jsonrpc : String
  id : Nat
  method : String
  param_program : String
  param_encoding : String
  param_commitment : String
deriving DecidableEq, Repr

/-- The request `connect` sends for a given program id. -/
def subscribeRequest (program_id : String) : SubscribeRequest :=
  { jsonrpc := "2.0"
    id := 1
    method := "programSubscribe"
    param_program := program_id
    param_encoding := "jsonParsed"
    param_commitment := "confirmed" }

/-- Environment for one `connect` attempt: whether `connect_async` and the
subscription `send` succeed, the incoming text messages as seen by the
confirmation loop (`some n` = a message deserializing to
`SubscriptionResponse` with `result = n`, `none` = any other message), and
the state of the freshly created signature channel when next observed. -/
structure NetEnv where
  connect_ok : Bool
  send_ok : Bool
  incoming : List (Option Nat)
  channelAfter : Channel
deriving DecidableEq, Repr

/-- The `loop` in `connect` waiting for a subscription confirmation: it
breaks with the first message that parses as a `SubscriptionResponse` and
skips every other message; `none` means no such message ever arrives, in
which case the loop never breaks. -/
def awaitConfirmation : List (Option Nat) → Option Nat
  | [] => none
  | some n :: _ => some n
  | none :: rest => awaitConfirmation rest

/-- Trace of one `connect` call: the subscription requests it sent and its
outcome (`none` at the outer layer = the call never returns). -/
structure ConnectTrace where
  sent : List SubscribeRequest
  outcome : Option (Except SolanaIndexerError (Nat × Channel))
deriving Repr

/-- `WebSocketSource::connect`: connect, send the `programSubscribe`
request, wait for the confirmation, spawn the reader task and install the
fresh channel. -/
def connect (src : WebSocketSource) (net : NetEnv) : ConnectTrace :=
  if net.connect_ok = false then
    { sent := [], outcome := some (.error (.RpcError "WebSocket connection failed")) }
  else
    let req := subscribeRequest src.program_id
    if net.send_ok = false then
      { sent := [req], outcome := some (.error (.RpcError "Failed to send subscription")) }
    else
      match awaitConfirmation net.incoming with
      | none => { sent := [req], outcome := none }
      | some subId => { sent := [req], outcome := some (.ok (subId, net.channelAfter)) }

/-- `connect`'s effect on `self.state`: on success the state becomes
`Connected` with the confirmed subscription id and the fresh channel. -/
def connectState (src : WebSocketSource) (net : NetEnv) :
    Option (Except SolanaIndexerError WebSocketSource) :=
  match (connect src net).outcome with
  | none => none
  | some (.error e) => some (.error e)
  | some (.ok (subId, ch)) =>
      some (.ok { src with state := .Connected subId ch })

/-- `WebSocketSource::ensure_connected`.  The `Nat` in the result is the
number of seconds slept before reconnecting (`0` when no reconnect
happened): the code sleeps exactly `reconnect_delay_secs`, discards the old
receiver by overwriting the state, and calls `connect` again. -/
def ensure_connected (src : WebSocketSource) (net : NetEnv) :
    Option (Except SolanaIndexerError (WebSocketSource × Nat)) :=
  match src.state with
  | .Disconnected =>
      match connectState src net with
      | none => none
      | some (.error e) => some (.error e)
      | some (.ok src2) => some (.ok (src2, 0))
  | .Connected _ ch =>
      if ch.closed then
        match connectState { src with state := .Disconnected } net with
        | none => none
        | some (.error e) => some (.error e)
        | some (.ok src2) => some (.ok (src2, src.reconnect_delay_secs))
      else
        some (.ok (src, 0))

/-- The `while let Ok(sig) = receiver.try_recv()` drain loop of
`next_batch`: pop immediately-available signatures, pushing each, and stop
once the batch holds 10.  Returns the batch and the signatures left in the
channel. -/
def drainList : List String → List String → List String × List String
  | [], acc => (acc, [])
  | s :: rest, acc =>
      if 10 ≤ (acc ++ [s]).length then (acc ++ [s], rest)
      else drainList rest (acc ++ [s])

/-- The `Connected` branch of `next_batch`, over the channel state at the
moment `recv` observes it: `recv().await` yields the head if one is
buffered (even on a closed channel), returns `None` — and the batch stays
empty — if the channel is closed and empty, and blocks (outer `none`) on an
open empty channel. -/
def nextBatchConnected (ch : Channel) : Option (List String × Channel) :=
  match ch.pending with
  | [] => if ch.closed then some ([], ch) else none
  | s :: rest =>
      let (batch, rem) := drainList rest [s]
      some (batch, { ch with pending := rem })

/-- `WebSocketSource::next_batch`.  `extra` and `closeAfter` describe what
the background reader task did to the channel between `ensure_connected`'s
`is_closed` check and the `recv` call: it appended `extra` signatures and
closed the channel if `closeAfter` (the task only ever appends and, on
termination, drops the sender). -/
def next_batch (src : WebSocketSource) (net : NetEnv)
    (extra : List String) (closeAfter : Bool) :
    Option (Except SolanaIndexerError (List String × WebSocketSource)) :=
  match ensure_connected src net with
  | none => none
  | some (.error e) => some (.error e)
  | some (.ok (src2, _slept)) =>
      match src2.state with
      | .Connected subId ch =>
          let ch2 : Channel :=
            { pending := ch.pending ++ extra, closed := ch.closed || closeAfter }
          match nextBatchConnected ch2 with
          | none => none
          | some (batch, ch3) =>
              some (.ok (batch, { src2 with state := .Connected subId ch3 }))
      | .Disconnected =>
          some (.error (.InternalError "WebSocket not connected"))

/-! ## Store (processed-signature table) -/

/-- Finality of a processed-signature entry. -/
inductive Finality where
  | tentative
  | finalized
deriving DecidableEq, Repr

/-- Modelled from the spec: the Store implementation (the
`_solana_indexer_processed` table behind `mark_processed` / `is_processed`)
is not among the sources — only its tests and benches are.  A
processed-signature entry per the spec data model:
`{signature (PK), slot, finality}` (`inserted_at` carries no semantics for
the claims and is omitted). -/
structure StoreEntry where
  signature : String
  slot : Nat
  finality : Finality
deriving DecidableEq, Repr

/-- Modelled from the spec: the Store's durable record of processed
signatures, keyed by the signature primary key. -/
structure Store where
  processed : List StoreEntry
deriving DecidableEq, Repr

/-- Modelled from the spec: `is_processed(sig) → bool` — whether a row with
this signature key exists. -/
def is_processed (st : Store) (sig : String) : Bool :=
  st.processed.any fun e => e.signature = sig

/-- Modelled from the spec: `mark_processed(sig, slot, finality)` as
insert-or-ignore on the signature key — a row whose key already exists is
left untouched. -/
def mark_processed (st : Store) (sig : String) (slot : Nat) (f : Finality) :
    Store :=
  if is_processed st sig then st
  else { processed := st.processed ++ [⟨sig, slot, f⟩] }

/-- `mark_processed` executed `k` times with the same arguments. -/
def mark_processed_iter (st : Store) (sig : String) (slot : Nat)
    (f : Finality) : Nat → Store
  | 0 => st
  | k + 1 => mark_processed_iter (mark_processed st sig slot f) sig slot f k

/-! ## Transaction metadata (`src/solana-indexer-sdk/src/types/metadata.rs`) -/

/-- `TokenBalanceInfo`: one token balance entry (`u8` fields as `Nat`,
`amount` kept string-encoded as in the source). -/
structure TokenBalanceInfo where
  account_index : Nat
  mint : String
  owner : String
  amount : String
  decimals : Nat
  program_id : Option String
deriving DecidableEq, Repr

/-- `TxMetadata`: the per-transaction context handed to every handler. -/
structure TxMetadata where
  slot : Nat
  block_time : Option Int
  fee : Nat
  pre_balances : List Nat
  post_balances : List Nat
  pre_token_balances : List TokenBalanceInfo
  post_token_balances : List TokenBalanceInfo
  signature : String
deriving DecidableEq, Repr

/-! ## Concrete fixtures for witnesses and counterexamples -/

/-- A decoder that always fails. -/
def decNone : DynamicLogDecoder := fun _ => none

/-- A decoder that always succeeds with discriminator `1,1,1,1,1,1,1,1`. -/
def decOne : DynamicLogDecoder := fun _ => some ([1, 1, 1, 1, 1, 1, 1, 1], [1, 2, 3])

/-- A decoder that always succeeds with discriminator `2,2,2,2,2,2,2,2`. -/
def decTwo : DynamicLogDecoder := fun _ => some ([2, 2, 2, 2, 2, 2, 2, 2], [4, 5])

/-- A parsed event emitted by program `"P1"`. -/
def evP1 : ParsedEvent :=
  { event_type := .ProgramLog, program_id := some "P1", data := some "log" }

/-- A parsed event with no program id. -/
def evNoPid : ParsedEvent :=
  { event_type := .ProgramLog, program_id := none, data := some "log" }

/-- Registry with a failing and then a succeeding decoder for `"P1"`. -/
def regNoneThenOne : LogDecoderRegistry :=
  register (register { decoders := [] } "P1" decNone) "P1" decOne

/-- Registry with two always-succeeding decoders (distinct discriminators)
for `"P1"`. -/
def regOneThenTwo : LogDecoderRegistry :=
  register (register { decoders := [] } "P1" decOne) "P1" decTwo

/-- Count of registered decoders for the event's program whose decode
returns `Some` on the event (the number of matching decoders). -/
def matchingDecoderCount (reg : LogDecoderRegistry) (e : ParsedEvent) : Nat :=
  match e.program_id with
  | none => 0
  | some pid =>
      match lookupDecoders reg.decoders pid with
      | none => 0
      | some ds => (ds.filter fun d => (d e).isSome).length

/-- A connected source whose channel still buffers `"sigX"` but whose
sender is gone (the background reader task ended): a disconnect with one
in-flight signature. -/
def srcBufferedClosed : WebSocketSource :=
  { ws_url := "ws://127.0.0.1:8900"
    program_id := "P1"
    reconnect_delay_secs := 5
    state := .Connected 1 { pending := ["sigX"], closed := true } }

/-- An environment in which reconnection succeeds: confirmation id 2,
fresh channel initially empty and open. -/
def netReconnectOk : NetEnv :=
  { connect_ok := true
    send_ok := true
    incoming := [none, some 2]
    channelAfter := { pending := [], closed := false } }

/-- The source `ensure_connected` produces for `srcBufferedClosed` under
`netReconnectOk`: reconnected with the fresh, empty channel. -/
def srcReconnected : WebSocketSource :=
  { ws_url := "ws://127.0.0.1:8900"
    program_id := "P1"
    reconnect_delay_secs := 5
    state := .Connected 2 { pending := [], closed := false } }

/-- The signatures buffered in a source's channel (`none` if disconnected). -/
def bufferedSignatures (src : WebSocketSource) : Option (List String) :=
  match src.state with
  | .Disconnected => none
  | .Connected _ ch => some ch.pending

/-- A connected source with an open channel buffering twelve signatures. -/
def srcTwelve : WebSocketSource :=
  { ws_url := "ws://127.0.0.1:8900"
    program_id := "P1"
    reconnect_delay_secs := 5
    state := .Connected 1
      { pending := ["s1", "s2", "s3", "s4", "s5", "s6", "s7", "s8", "s9",
                    "s10", "s11", "s12"]
        closed := false } }

/-- A connected source with an open, empty channel. -/
def srcEmptyOpen : WebSocketSource :=
  { ws_url := "ws://127.0.0.1:8900"
    program_id := "P1"
    reconnect_delay_secs := 5
    state := .Connected 1 { pending := [], closed := false } }

/-- An environment in which the WebSocket connection attempt fails. -/
def netConnectFail : NetEnv :=
  { connect_ok := false
    send_ok := true
    incoming := []
    channelAfter := { pending := [], closed := false } }

/-- A disconnected source. -/
def srcDisconnected : WebSocketSource :=
  { ws_url := "ws://127.0.0.1:8900"
    program_id := "P1"
    reconnect_delay_secs := 5
    state := .Disconnected }

/-- A concrete token balance entry. -/
def tbA : TokenBalanceInfo :=
  { account_index := 1
    mint := "MintA"
    owner := "OwnerA"
    amount := "1000"
    decimals := 6
    program_id := some "TokenProg" }

/-- A concrete transaction metadata value. -/
def metaA : TxMetadata :=
  { slot := 7
    block_time := some 1700000000
    fee := 5000
    pre_balances := [10, 20]
    post_balances := [9, 21]
    pre_token_balances := [tbA]
    post_token_balances := [tbA]
    signature := "sigA" }

/-- The same transaction metadata value, written independently. -/
def metaB : TxMetadata :=
  { slot := 7
    block_time := some 1700000000
    fee := 5000
    pre_balances := [10, 20]
    post_balances := [9, 21]
    pre_token_balances := [tbA]
    post_token_balances := [tbA]
    signature := "sigA" }

/-! ## Helper lemmas -/

/-- `firstDecode` returns the result of the first decoder whose decode
succeeds: if every decoder before index `i` fails and the one at `i`
succeeds with `r`, the loop's result is `r`. -/
theorem firstDecode_eq_of_first_some
    (ds : List DynamicLogDecoder) (e : ParsedEvent) (i : Nat)
    (r : Discriminator × List Nat) (hi : i < ds.length)
    (hbefore : ∀ j, (hj : j < i) → ds.get ⟨j, hj.trans hi⟩ e = none)
    (hr : ds.get ⟨i, hi⟩ e = some r) :
    firstDecode ds e = some r := by
  induction ds generalizing i with
  | nil => exact absurd hi (Nat.not_lt_zero i)
  | cons d ds ih =>
    cases i with
    | zero =>
      simp only [List.get] at hr
      simp [firstDecode, hr]
    | succ i =>
      have hd : d e = none := hbefore 0 (Nat.succ_pos i)
      simp only [firstDecode, hd]
      exact ih i (Nat.lt_of_succ_lt_succ hi)
        (fun j hj => hbefore (j + 1) (Nat.succ_lt_succ hj)) hr

/-- `firstDecode` succeeds exactly when some decoder in the list succeeds. -/
theorem firstDecode_isSome_iff_any (ds : List DynamicLogDecoder)
    (e : ParsedEvent) :
    (firstDecode ds e).isSome = ds.any fun d => (d e).isSome := by
  induction ds with
  | nil => rfl
  | cons d ds ih =>
    simp only [firstDecode, List.any_cons]
    cases hd : d e with
    | none => simp [hd, ih]
    | some r => simp [hd]

/-- `registerEntry` appends the new decoder at the end of the program's
vector (creating a singleton vector for a fresh program). -/
theorem lookupDecoders_registerEntry
    (m : List (String × List DynamicLogDecoder)) (pid : String)
    (d : DynamicLogDecoder) :
    lookupDecoders (registerEntry m pid d) pid =
      some ((lookupDecoders m pid).getD [] ++ [d]) := by
  induction m with
  | nil => simp [registerEntry, lookupDecoders]
  | cons kv rest ih =>
    obtain ⟨k, ds⟩ := kv
    by_cases hk : k = pid
    · subst hk
      simp [registerEntry, lookupDecoders]
    · simp [registerEntry, lookupDecoders, hk, ih]

/-- Closed form of the `try_recv` drain loop: starting from a batch of
fewer than 10 signatures, it moves signatures from the channel to the
batch in order until the batch holds 10 or the channel is exhausted. -/
theorem drainList_eq (pending : List String) (acc : List String)
    (hacc : acc.length < 10) :
    drainList pending acc =
      (acc ++ pending.take (10 - acc.length),
       pending.drop (10 - acc.length)) := by
  induction pending generalizing acc with
  | nil => simp [drainList]
  | cons s rest ih =>
    simp only [drainList]
    by_cases hlen : 10 ≤ (acc ++ [s]).length
    · rw [if_pos hlen]
      have h1 : 10 - acc.length = 1 := by
        simp only [List.length_append, List.length_singleton] at hlen
        omega
      rw [h1]
      simp
    · rw [if_neg hlen]
      have hlt : (acc ++ [s]).length < 10 := Nat.lt_of_not_le hlen
      have hstep : 10 - acc.length = (10 - (acc ++ [s]).length) + 1 := by
        simp only [List.length_append, List.length_singleton] at hlt ⊢
        omega
      rw [ih (acc ++ [s]) hlt, hstep]
      simp [List.take_succ_cons, List.drop_succ_cons]

/-- The `Connected` branch of `next_batch` on a channel with at least one
buffered signature: the batch is the first 10 buffered signatures and the
rest stay in the channel. -/
theorem nextBatchConnected_cons (ch : Channel) (s : String)
    (rest : List String) (h : ch.pending = s :: rest) :
    nextBatchConnected ch =
      some ((s :: rest).take 10,
        { ch with pending := (s :: rest).drop 10 }) := by
  have h1 : (1 : Nat) < 10 := by omega
  simp only [nextBatchConnected, h]
  rw [drainList_eq rest [s] (by simp)]
  simp [List.take_succ_cons, List.drop_succ_cons]

/-- `connectState` succeeds only with a `Connected` state carrying the
confirmed subscription id and the fresh channel. -/
theorem connectState_ok (src : WebSocketSource) (net : NetEnv)
    (src2 : WebSocketSource)
    (h : connectState src net = some (.ok src2)) :
    ∃ subId, awaitConfirmation net.incoming = some subId ∧
      src2.state = .Connected subId net.channelAfter := by
  simp only [connectState, connect] at h
  by_cases hc : net.connect_ok = false
  · simp [hc] at h
  · simp only [hc, if_false] at h
    by_cases hs : net.send_ok = false
    · simp [hs] at h
    · simp only [hs, if_false] at h
      cases hac : awaitConfirmation net.incoming with
      | none => simp [hac] at h
      | some subId =>
        simp only [hac] at h
        refine ⟨subId, rfl, ?_⟩
        cases h
        rfl

/-- `connectState` fails only with an `RpcError`. -/
theorem connectState_error_rpc (src : WebSocketSource) (net : NetEnv)
    (e : SolanaIndexerError)
    (h : connectState src net = some (.error e)) :
    ∃ msg, e = .RpcError msg := by
  simp only [connectState, connect] at h
  by_cases hc : net.connect_ok = false
  · simp only [hc, if_true] at h
    cases h
    exact ⟨_, rfl⟩
  · simp only [hc, if_false] at h
    by_cases hs : net.send_ok = false
    · simp only [hs, if_true] at h
      cases h
      exact ⟨_, rfl⟩
    · simp only [hs, if_false] at h
      cases hac : awaitConfirmation net.incoming with
      | none => simp [hac] at h
      | some subId => simp [hac] at h

/-- Whenever `ensure_connected` returns `Ok`, the state is `Connected`. -/
theorem ensure_connected_ok_state (src : WebSocketSource) (net : NetEnv)
    (src2 : WebSocketSource) (t : Nat)
    (h : ensure_connected src net = some (.ok (src2, t))) :
    ∃ id ch, src2.state = .Connected id ch := by
  simp only [ensure_connected] at h
  cases hst : src.state with
  | Disconnected =>
    simp only [hst] at h
    cases hcs : connectState src net with
    | none => simp [hcs] at h
    | some r =>
      cases r with
      | error e => simp [hcs] at h
      | ok src3 =>
        simp only [hcs] at h
        obtain ⟨subId, -, hstate⟩ := connectState_ok src net src3 hcs
        cases h
        exact ⟨subId, net.channelAfter, hstate⟩
  | Connected id ch =>
    simp only [hst] at h
    by_cases hcl : ch.closed
    · simp only [hcl, if_true] at h
      cases hcs : connectState { src with state := .Disconnected } net with
      | none => simp [hcs] at h
      | some r =>
        cases r with
        | error e => simp [hcs] at h
        | ok src3 =>
          simp only [hcs] at h
          obtain ⟨subId, -, hstate⟩ :=
            connectState_ok { src with state := .Disconnected } net src3 hcs
          cases h
          exact ⟨subId, net.channelAfter, hstate⟩
    · simp only [hcl, if_false] at h
      cases h
      exact ⟨id, ch, hst⟩

/-! ## Claim theorems -/

/-- C1: decoders registered earlier for a program are tried before decoders
registered later (`register` appends to the program's vector and the decode
loop scans it from the front), and the first decoder returning `Some` wins:
`decode_logs` records that decoder's `(discriminator, payload)` result for
the event and tries no further decoder for it. -/
theorem decode_logs_first_registered_wins
    (reg : LogDecoderRegistry) (e : ParsedEvent) (es : List ParsedEvent)
    (pid : String) (ds : List DynamicLogDecoder) (i : Nat)
    (r : Discriminator × List Nat)
    (hpid : e.program_id = some pid)
    (hds : lookupDecoders reg.decoders pid = some ds)
    (hi : i < ds.length)
    (hbefore : ∀ j, (hj : j < i) → ds.get ⟨j, hj.trans hi⟩ e = none)
    (hr : ds.get ⟨i, hi⟩ e = some r) :
    decode_logs reg (e :: es) = r :: decode_logs reg es ∧
    ∀ (m : List (String × List DynamicLogDecoder)) (d : DynamicLogDecoder),
      lookupDecoders (register { decoders := m } pid d).decoders pid =
        some ((lookupDecoders m pid).getD [] ++ [d]) := by
  constructor
  · have hfd : firstDecode ds e = some r :=
      firstDecode_eq_of_first_some ds e i r hi hbefore hr
    simp [decode_logs, decodeEvent, hpid, hds, hfd]
  · intro m d
    exact lookupDecoders_registerEntry m pid d

/-- Witness for C1: with a failing decoder registered before a succeeding
one for program `"P1"`, the succeeding decoder's result is recorded. -/
theorem decode_logs_first_registered_wins_witness :
    decode_logs regNoneThenOne [evP1] =
      ([1, 1, 1, 1, 1, 1, 1, 1], [1, 2, 3]) :: decode_logs regNoneThenOne [] :=
  (decode_logs_first_registered_wins regNoneThenOne evP1 [] "P1"
    [decNone, decOne] 1 ([1, 1, 1, 1, 1, 1, 1, 1], [1, 2, 3]) rfl rfl
    (by simp)
    (by
      intro j hj
      have hj0 : j = 0 := Nat.lt_one_iff.mp hj
      subst hj0
      rfl)
    rfl).1

/-- C4 counterexample: an event matched by two registered decoders (with
distinct discriminators) yields one emitted tuple, not one per match — the
decode loop breaks at the first success, so the output count differs from
the number of matching decoders. -/
theorem decode_logs_one_per_match_cex :
    matchingDecoderCount regOneThenTwo evP1 = 2 ∧
    (decode_logs regOneThenTwo [evP1]).length = 1 ∧
    (decode_logs regOneThenTwo [evP1]).length ≠
      matchingDecoderCount regOneThenTwo evP1 :=
  ⟨rfl, rfl, by decide⟩

/-- C4 amended: for an input event routed to its program's decoders,
`decode_logs` emits exactly one tuple when at least one registered decoder
matches — that of the earliest-registered matching decoder — and zero
otherwise, regardless of how many decoders match. -/
theorem decode_logs_one_tuple_if_any_match
    (reg : LogDecoderRegistry) (e : ParsedEvent) (es : List ParsedEvent)
    (pid : String) (ds : List DynamicLogDecoder)
    (hpid : e.program_id = some pid)
    (hds : lookupDecoders reg.decoders pid = some ds) :
    (decode_logs reg (e :: es)).length =
      (if ds.any (fun d => (d e).isSome) then 1 else 0) +
        (decode_logs reg es).length := by
  have hde : decodeEvent reg e = firstDecode ds e := by
    simp [decodeEvent, hpid, hds]
  cases hfd : firstDecode ds e with
  | none =>
    have hany : (ds.any fun d => (d e).isSome) = false := by
      rw [← firstDecode_isSome_iff_any, hfd]
      rfl
    simp [decode_logs, hde, hfd, hany]
  | some r =>
    have hany : (ds.any fun d => (d e).isSome) = true := by
      rw [← firstDecode_isSome_iff_any, hfd]
      rfl
    simp [decode_logs, hde, hfd, hany, Nat.add_comm]

/-- Witness for the amended C4: the doubly-matched event contributes
exactly one tuple. -/
theorem decode_logs_one_tuple_if_any_match_witness :
    (decode_logs regOneThenTwo [evP1]).length =
      (if [decOne, decTwo].any (fun d => (d evP1).isSome) then 1 else 0) +
        (decode_logs regOneThenTwo []).length :=
  decode_logs_one_tuple_if_any_match regOneThenTwo evP1 [] "P1"
    [decOne, decTwo] rfl rfl

/-- C10: `decode_logs` emits at most one tuple per input event and in
source order (its output is the `filterMap` of the per-event decode over
the input), its output length never exceeds the input length, and an event
with no program id, or whose program id has no registered decoders,
contributes no tuple. -/
theorem decode_logs_output_bounded
    (reg : LogDecoderRegistry) (events : List ParsedEvent) :
    decode_logs reg events = events.filterMap (decodeEvent reg) ∧
    (decode_logs reg events).length ≤ events.length ∧
    (∀ e es, e.program_id = none →
      decode_logs reg (e :: es) = decode_logs reg es) ∧
    (∀ e es pid, e.program_id = some pid →
      lookupDecoders reg.decoders pid = none →
      decode_logs reg (e :: es) = decode_logs reg es) := by
  have hmain : ∀ evs : List ParsedEvent,
      decode_logs reg evs = evs.filterMap (decodeEvent reg) := by
    intro evs
    induction evs with
    | nil => rfl
    | cons e es ih =>
      cases hde : decodeEvent reg e with
      | none => simp [decode_logs, hde, ih]
      | some r => simp [decode_logs, hde, ih]
  refine ⟨hmain events, ?_, ?_, ?_⟩
  · rw [hmain events]
    exact List.length_filterMap_le _ _
  · intro e es hnone
    simp [decode_logs, decodeEvent, hnone]
  · intro e es pid hpid hlk
    simp [decode_logs, decodeEvent, hpid, hlk]

/-- Witness for C10: an event with no program id contributes nothing. -/
theorem decode_logs_output_bounded_witness :
    decode_logs regNoneThenOne (evNoPid :: [evP1]) =
      decode_logs regNoneThenOne [evP1] :=
  (decode_logs_output_bounded regNoneThenOne (evNoPid :: [evP1])).2.2.1
    evNoPid [evP1] rfl

/-- `ensure_connected` fails only with an `RpcError` (every error it can
return comes out of `connect`). -/
theorem ensure_connected_error_rpc (src : WebSocketSource) (net : NetEnv)
    (e : SolanaIndexerError)
    (h : ensure_connected src net = some (.error e)) :
    ∃ msg, e = .RpcError msg := by
  simp only [ensure_connected] at h
  cases hst : src.state with
  | Disconnected =>
    simp only [hst] at h
    cases hcs : connectState src net with
    | none => simp [hcs] at h
    | some r =>
      cases r with
      | error e0 =>
        simp only [hcs, Option.some.injEq, Except.error.injEq] at h
        subst h
        exact connectState_error_rpc src net e0 hcs
      | ok src3 => simp [hcs] at h
  | Connected id ch =>
    simp only [hst] at h
    by_cases hcl : ch.closed
    · simp only [hcl, if_true] at h
      cases hcs : connectState { src with state := .Disconnected } net with
      | none => simp [hcs] at h
      | some r =>
        cases r with
        | error e0 =>
          simp only [hcs, Option.some.injEq, Except.error.injEq] at h
          subst h
          exact connectState_error_rpc _ net e0 hcs
        | ok src3 => simp [hcs] at h
    · simp [hcl] at h

/-- C2: on a connected source, `next_batch` blocks for a first signature
and then drains only immediately-available followers: given the signatures
available once `recv` unblocks, the batch is their first 10 — the blocking
first signature followed by at most 10 immediately-available followers and
nothing more (a prefix of what is available) — and the rest stay buffered. -/
theorem next_batch_first_plus_bounded_drain
    (src : WebSocketSource) (net : NetEnv) (id : Nat) (ch : Channel)
    (extra : List String) (closeAfter : Bool) (s : String)
    (rest : List String)
    (hst : src.state = .Connected id ch)
    (hopen : ch.closed = false)
    (hav : ch.pending ++ extra = s :: rest) :
    next_batch src net extra closeAfter =
      some (.ok ((s :: rest).take 10,
        { src with state := (.Connected id
            { pending := (s :: rest).drop 10,
              closed := ch.closed || closeAfter }) })) ∧
    ((s :: rest).take 10).head? = some s ∧
    ((s :: rest).take 10).length ≤ 1 + 10 ∧
    (s :: rest).take 10 <+: s :: rest := by
  have hens : ensure_connected src net = some (.ok (src, 0)) := by
    simp [ensure_connected, hst, hopen]
  have hnb : nextBatchConnected
      { pending := ch.pending ++ extra, closed := ch.closed || closeAfter } =
      some ((s :: rest).take 10,
        { pending := (s :: rest).drop 10,
          closed := ch.closed || closeAfter }) :=
    nextBatchConnected_cons _ s rest hav
  refine ⟨?_, ?_, ?_, List.take_prefix _ _⟩
  · simp [next_batch, hens, hst, hnb]
  · have h10 : (10 : Nat) = 9 + 1 := rfl
    rw [h10, List.take_succ_cons]
    rfl
  · have h := List.length_take_le 10 (s :: rest)
    omega

/-- Witness for C2: twelve buffered signatures yield the batch
`s1 … s10`, with `s11, s12` left in the channel. -/
theorem next_batch_first_plus_bounded_drain_witness :
    next_batch srcTwelve netReconnectOk [] false =
      some (.ok ((["s1", "s2", "s3", "s4", "s5", "s6", "s7", "s8", "s9",
          "s10", "s11", "s12"]).take 10,
        { srcTwelve with state := (.Connected 1
            { pending := (["s1", "s2", "s3", "s4", "s5", "s6", "s7", "s8",
                "s9", "s10", "s11", "s12"]).drop 10,
              closed := false || false }) })) :=
  (next_batch_first_plus_bounded_drain srcTwelve netReconnectOk 1
    { pending := ["s1", "s2", "s3", "s4", "s5", "s6", "s7", "s8", "s9",
        "s10", "s11", "s12"]
      closed := false }
    [] false "s1"
    ["s2", "s3", "s4", "s5", "s6", "s7", "s8", "s9", "s10", "s11", "s12"]
    rfl rfl rfl).1

/-- C3 counterexample: a source whose channel still buffers `sigX` when the
disconnect is observed loses it across the reconnection — `ensure_connected`
replaces the state with a fresh, empty channel, and the next pull blocks
with `sigX` never delivered. -/
theorem reconnect_drops_buffered_cex :
    bufferedSignatures srcBufferedClosed = some ["sigX"] ∧
    ensure_connected srcBufferedClosed netReconnectOk =
      some (.ok (srcReconnected, 5)) ∧
    bufferedSignatures srcReconnected = some [] ∧
    next_batch srcBufferedClosed netReconnectOk [] false = none :=
  ⟨rfl, rfl, rfl, rfl⟩

/-- C3 amended: when the source observes a disconnect (closed channel), it
waits exactly `reconnect_delay_secs` (a fixed delay, no backoff) and
re-subscribes; the old in-flight channel — with any signatures still
buffered in it — is discarded and replaced by the fresh connection's
channel, so buffered signatures are not delivered after reconnection. -/
theorem reconnect_fixed_delay_fresh_channel
    (src : WebSocketSource) (net : NetEnv) (id : Nat) (ch : Channel)
    (src2 : WebSocketSource) (t : Nat) (subId : Nat)
    (hst : src.state = .Connected id ch)
    (hclosed : ch.closed = true)
    (hconf : awaitConfirmation net.incoming = some subId)
    (hok : ensure_connected src net = some (.ok (src2, t))) :
    t = src.reconnect_delay_secs ∧
    src2.state = .Connected subId net.channelAfter := by
  simp only [ensure_connected, hst, hclosed, if_true] at hok
  cases hcs : connectState { src with state := .Disconnected } net with
  | none => simp [hcs] at hok
  | some r =>
    cases r with
    | error e => simp [hcs] at hok
    | ok src3 =>
      simp only [hcs, Option.some.injEq, Except.ok.injEq,
        Prod.mk.injEq] at hok
      obtain ⟨hsrc, ht⟩ := hok
      subst hsrc
      subst ht
      obtain ⟨subId2, hconf2, hstate⟩ := connectState_ok _ net src3 hcs
      rw [hconf] at hconf2
      cases hconf2
      exact ⟨rfl, hstate⟩

/-- Witness for the amended C3: the buffered-closed source reconnects after
exactly its 5-second delay with the fresh, empty channel. -/
theorem reconnect_fixed_delay_fresh_channel_witness :
    5 = srcBufferedClosed.reconnect_delay_secs ∧
    srcReconnected.state = .Connected 2 netReconnectOk.channelAfter :=
  reconnect_fixed_delay_fresh_channel srcBufferedClosed netReconnectOk 1
    { pending := ["sigX"], closed := true } srcReconnected 5 2
    rfl rfl rfl rfl

/-- C8: the `Disconnected` branch of `next_batch` is unreachable — whenever
`ensure_connected` returns `Ok` the state is `Connected`, so `next_batch`
never returns `InternalError "WebSocket not connected"` and its only error
outcomes are those propagated from `ensure_connected` itself. -/
theorem next_batch_disconnected_branch_unreachable :
    (∀ (src : WebSocketSource) (net : NetEnv) (src2 : WebSocketSource)
      (t : Nat),
      ensure_connected src net = some (.ok (src2, t)) →
      ∃ id ch, src2.state = .Connected id ch) ∧
    (∀ (src : WebSocketSource) (net : NetEnv) (extra : List String)
      (closeAfter : Bool),
      next_batch src net extra closeAfter ≠
        some (.error (.InternalError "WebSocket not connected"))) ∧
    (∀ (src : WebSocketSource) (net : NetEnv) (extra : List String)
      (closeAfter : Bool) (e : SolanaIndexerError),
      next_batch src net extra closeAfter = some (.error e) →
      ensure_connected src net = some (.error e)) := by
  refine ⟨ensure_connected_ok_state, ?_, ?_⟩
  · intro src net extra closeAfter hcontra
    cases hens : ensure_connected src net with
    | none => simp [next_batch, hens] at hcontra
    | some r =>
      cases r with
      | error e0 =>
        simp only [next_batch, hens, Option.some.injEq,
          Except.error.injEq] at hcontra
        obtain ⟨msg, hmsg⟩ := ensure_connected_error_rpc src net e0 hens
        rw [hcontra] at hmsg
        exact SolanaIndexerError.noConfusion hmsg
      | ok p =>
        obtain ⟨src2, t⟩ := p
        obtain ⟨id, ch, hstate⟩ :=
          ensure_connected_ok_state src net src2 t hens
        simp only [next_batch, hens, hstate] at hcontra
        cases hnb : nextBatchConnected
            { pending := ch.pending ++ extra,
              closed := ch.closed || closeAfter } with
        | none => simp [hnb] at hcontra
        | some p2 =>
          obtain ⟨batch, ch3⟩ := p2
          simp [hnb] at hcontra
  · intro src net extra closeAfter e h
    cases hens : ensure_connected src net with
    | none => simp [next_batch, hens] at h
    | some r =>
      cases r with
      | error e0 =>
        simp only [next_batch, hens, Option.some.injEq,
          Except.error.injEq] at h
        subst h
        rfl
      | ok p =>
        obtain ⟨src2, t⟩ := p
        obtain ⟨id, ch, hstate⟩ :=
          ensure_connected_ok_state src net src2 t hens
        simp only [next_batch, hens, hstate] at h
        cases hnb : nextBatchConnected
            { pending := ch.pending ++ extra,
              closed := ch.closed || closeAfter } with
        | none => simp [hnb] at h
        | some p2 =>
          obtain ⟨batch, ch3⟩ := p2
          simp [hnb] at h

/-- Witness for C8: a failed connection attempt propagates the
`ensure_connected` error through `next_batch` unchanged. -/
theorem next_batch_disconnected_branch_unreachable_witness :
    ensure_connected srcDisconnected netConnectFail =
      some (.error (.RpcError "WebSocket connection failed")) :=
  next_batch_disconnected_branch_unreachable.2.2 srcDisconnected
    netConnectFail [] false (.RpcError "WebSocket connection failed") rfl

/-- C9: when the channel yields no signature because it has been closed
(the background reader task ended after the `is_closed` check), `next_batch`
returns `Ok` with an empty batch, not an error. -/
theorem next_batch_closed_channel_empty_ok
    (src : WebSocketSource) (net : NetEnv) (id : Nat) (ch : Channel)
    (hst : src.state = .Connected id ch)
    (hopen : ch.closed = false)
    (hempty : ch.pending = []) :
    next_batch src net [] true =
      some (.ok ([], { src with state := (.Connected id
        { pending := [], closed := true }) })) := by
  have hens : ensure_connected src net = some (.ok (src, 0)) := by
    simp [ensure_connected, hst, hopen]
  simp [next_batch, hens, hst, hempty, hopen, nextBatchConnected]

/-- Witness for C9: a caller observes `Ok []` on the concrete source whose
channel closes empty between the connectivity check and the pull. -/
theorem next_batch_closed_channel_empty_ok_witness :
    next_batch srcEmptyOpen netReconnectOk [] true =
      some (.ok ([], { srcEmptyOpen with state := (.Connected 1
        { pending := [], closed := true }) })) :=
  next_batch_closed_channel_empty_ok srcEmptyOpen netReconnectOk 1
    { pending := [], closed := false } rfl rfl rfl

/-- C6: every subscription request `connect` sends is a `programSubscribe`
JSON-RPC 2.0 request for the source's program id with encoding
`jsonParsed` and commitment `confirmed`, and the state becomes `Connected`
only after a subscription confirmation carrying a subscription id was
received by the confirmation loop. -/
theorem connect_sends_program_subscribe (src : WebSocketSource)
    (net : NetEnv) :
    (∀ req, req ∈ (connect src net).sent →
      req.method = "programSubscribe" ∧
      req.param_program = src.program_id ∧
      req.param_encoding = "jsonParsed" ∧
      req.param_commitment = "confirmed" ∧
      req.jsonrpc = "2.0") ∧
    (∀ src2, connectState src net = some (.ok src2) →
      ∃ subId, awaitConfirmation net.incoming = some subId ∧
        src2.state = .Connected subId net.channelAfter) := by
  constructor
  · intro req hreq
    have hr : req = subscribeRequest src.program_id := by
      simp only [connect] at hreq
      by_cases hc : net.connect_ok = false
      · simp [hc] at hreq
      · simp only [hc, if_false] at hreq
        by_cases hs : net.send_ok = false
        · simpa [hs] using hreq
        · simp only [hs, if_false] at hreq
          cases hac : awaitConfirmation net.incoming with
          | none => simpa [hac] using hreq
          | some subId => simpa [hac] using hreq
    subst hr
    exact ⟨rfl, rfl, rfl, rfl, rfl⟩
  · intro src2 h
    exact connectState_ok src net src2 h

/-- Witness for C6: the request sent for program `P1`. -/
theorem connect_sends_program_subscribe_witness :
    (subscribeRequest "P1").method = "programSubscribe" ∧
    (subscribeRequest "P1").param_program = srcDisconnected.program_id ∧
    (subscribeRequest "P1").param_encoding = "jsonParsed" ∧
    (subscribeRequest "P1").param_commitment = "confirmed" ∧
    (subscribeRequest "P1").jsonrpc = "2.0" :=
  (connect_sends_program_subscribe srcDisconnected netReconnectOk).1
    (subscribeRequest "P1") (by simp [connect, srcDisconnected,
      netReconnectOk, awaitConfirmation])

/-- C5: `mark_processed` is idempotent on the signature key — executing it
`k ≥ 1` times with the same arguments leaves the Store exactly as one
execution does, and `is_processed` holds afterward. -/
theorem mark_processed_idempotent (st : Store) (sig : String) (slot : Nat)
    (f : Finality) (k : Nat) (hk : 1 ≤ k) :
    mark_processed_iter st sig slot f k = mark_processed st sig slot f ∧
    is_processed (mark_processed_iter st sig slot f k) sig = true := by
  have hproc : ∀ st2 : Store,
      is_processed (mark_processed st2 sig slot f) sig = true := by
    intro st2
    by_cases hp : is_processed st2 sig
    · rw [mark_processed, if_pos hp]
      exact hp
    · rw [mark_processed, if_neg hp]
      simp [is_processed]
  have hstable : ∀ st2 : Store, is_processed st2 sig = true →
      mark_processed st2 sig slot f = st2 := by
    intro st2 hp
    simp [mark_processed, hp]
  have hiter : ∀ (n : Nat) (st2 : Store), is_processed st2 sig = true →
      mark_processed_iter st2 sig slot f n = st2 := by
    intro n
    induction n with
    | zero => intro st2 _; rfl
    | succ n ih =>
      intro st2 hp
      simp only [mark_processed_iter, hstable st2 hp]
      exact ih st2 hp
  obtain ⟨k, rfl⟩ : ∃ n, k = n + 1 :=
    ⟨k - 1, by omega⟩
  constructor
  · simp only [mark_processed_iter]
    exact hiter k _ (hproc st)
  · simp only [mark_processed_iter]
    rw [hiter k _ (hproc st)]
    exact hproc st

/-- Witness for C5: marking `sigA` three times equals marking it once, and
it is processed afterward. -/
theorem mark_processed_idempotent_witness :
    mark_processed_iter { processed := [] } "sigA" 7 .tentative 3 =
      mark_processed { processed := [] } "sigA" 7 .tentative ∧
    is_processed
      (mark_processed_iter { processed := [] } "sigA" 7 .tentative 3)
      "sigA" = true :=
  mark_processed_idempotent { processed := [] } "sigA" 7 .tentative 3
    (by omega)

/-- C7: the metadata handed to handlers carries exactly the fields slot,
optional block time, fee, pre/post balances, pre/post token balances and
signature — two metadata values agreeing on these eight fields are equal —
and a token balance entry carries exactly account index, mint, owner,
string-encoded amount, decimals and optional program id. -/
theorem txmetadata_exact_fields :
    (∀ m m2 : TxMetadata,
      m.slot = m2.slot → m.block_time = m2.block_time → m.fee = m2.fee →
      m.pre_balances = m2.pre_balances →
      m.post_balances = m2.post_balances →
      m.pre_token_balances = m2.pre_token_balances →
      m.post_token_balances = m2.post_token_balances →
      m.signature = m2.signature → m = m2) ∧
    (∀ b b2 : TokenBalanceInfo,
      b.account_index = b2.account_index → b.mint = b2.mint →
      b.owner = b2.owner → b.amount = b2.amount →
      b.decimals = b2.decimals → b.program_id = b2.program_id →
      b = b2) := by
  constructor
  · intro m m2
    cases m
    cases m2
    intros
    simp_all
  · intro b b2
    cases b
    cases b2
    intros
    simp_all

/-- Witness for C7: two independently written metadata values agreeing on
all eight fields are the same value. -/
theorem txmetadata_exact_fields_witness : metaA = metaB :=
  txmetadata_exact_fields.1 metaA metaB rfl rfl rfl rfl rfl rfl rfl rfl

end SolStream
